import Mathlib

/-!
Verification development for the Spec Hub sync tool (spec-hub-client.js,
spec-hub-sync.js, test-generator.js).  The JavaScript is embedded shallowly:
remote calls become explicit request traces or outcome oracles, JS truthiness
is modelled where the code branches on it, and fallible code returns `Except`.
-/

/- ===== Spec upsert: `uploadSpec`, `findSpecByName` (spec-hub-client.js) ===== -/

/-- Body of a request issued by `uploadSpec`: the PATCH carries only the file
content, the POST carries the full payload (name, type, files). -/
inductive ReqBody where
  | patchFiles (content : String)
  | createSpec (name : String) (content : String)
  | noBody
deriving DecidableEq

/-- One HTTP call issued against the remote API, as method, endpoint and body. -/
structure ApiCall where
  method : String
  endpoint : String
  body : ReqBody
deriving DecidableEq

/-- JS truthiness of a string-or-null value (`if (specId)`): null/undefined and
the empty string are falsy. -/
def truthyOptStr : Option String → Bool
  | none => false
  | some s => s ≠ ""

/-- What a call to `uploadSpec` produced: the calls it issued, in order, and the
identifier it returned. -/
structure UploadResult where
  calls : List ApiCall
  returnedId : String
deriving DecidableEq

/-- `uploadSpec(name, specContent, specId)`: with a truthy `specId` it PATCHes
that spec's `files/index.json` and returns `specId`; otherwise it POSTs a create
and returns the response's `id` (modelled by the oracle `postId`). -/
def uploadSpec (workspaceId name content : String) (specId : Option String)
    (postId : String) : UploadResult :=
  if truthyOptStr specId then
    { calls := [⟨"PATCH", "/specs/" ++ specId.getD "" ++ "/files/index.json",
        .patchFiles content⟩],
      returnedId := specId.getD "" }
  else
    { calls := [⟨"POST", "/specs?workspaceId=" ++ workspaceId,
        .createSpec name content⟩],
      returnedId := postId }

/-- A spec as listed by the workspace listing endpoint. -/
structure SpecInfo where
  id : String
  name : String
deriving DecidableEq

/-- `findSpecByName(name)`: linear scan (`specs.find`) over the listing. -/
def findSpecByName (specs : List SpecInfo) (name : String) : Option SpecInfo :=
  specs.find? (fun s => s.name = name)

/-- Steps 2 and 3 of `sync`: resolve an existing spec id by name (null when the
lookup misses), then `uploadSpec` with that id. -/
def syncUpsertSpec (workspaceId : String) (specs : List SpecInfo)
    (name content postId : String) : UploadResult :=
  uploadSpec workspaceId name content
    ((findSpecByName specs name).map (fun s => s.id)) postId

/- ===== Tag validation: `validateTag` (spec-hub-client.js) ===== -/

/-- A lowercase ASCII letter, the `[a-z]` of the validation regexes. -/
def isLowerAZ (c : Char) : Bool := 'a' ≤ c && c ≤ 'z'

/-- An ASCII digit, the `[0-9]` of the validation regexes. -/
def isDigit09 (c : Char) : Bool := '0' ≤ c && c ≤ '9'

/-- A character admitted by the tag character class `[a-z0-9-]`. -/
def isTagChar (c : Char) : Bool := isLowerAZ c || isDigit09 c || c = '-'

/-- Worker for the invalid-run replacement: the flag records whether the
previous character was part of an invalid run (already replaced). -/
def replaceInvalidAux : Bool → List Char → List Char
  | _, [] => []
  | prevInvalid, c :: rest =>
    if isTagChar c then c :: replaceInvalidAux false rest
    else if prevInvalid then replaceInvalidAux true rest
    else '-' :: replaceInvalidAux true rest

/-- The global regex replacement of invalid characters with hyphens: each
maximal run of characters outside the tag character class becomes one hyphen. -/
def replaceInvalidRuns (cs : List Char) : List Char :=
  replaceInvalidAux false cs

/-- The leading-hyphen half of `replace(/^-+|-+$/g, '')`. -/
def dropLeadingHyphens (cs : List Char) : List Char :=
  cs.dropWhile (fun c => c = '-')

/-- The trailing-hyphen half of `replace(/^-+|-+$/g, '')`, also used for the
truncation step's strip of the trailing hyphen run. -/
def dropTrailingHyphens (cs : List Char) : List Char :=
  (cs.reverse.dropWhile (fun c => c = '-')).reverse

/-- `/^[a-z]/.test(clean)` -/
def startsWithLower (cs : List Char) : Bool :=
  match cs with
  | [] => false
  | c :: _ => isLowerAZ c

/-- `/[a-z0-9]$/.test(clean)` -/
def endsWithAlnum (cs : List Char) : Bool :=
  match cs.getLast? with
  | none => false
  | some c => isLowerAZ c || isDigit09 c

/-- The repair pipeline of `validateTag` on the character list of a tag:
lowercase (ASCII fragment of `toLowerCase`), coerce invalid runs to hyphens,
trim boundary hyphens, then the four boundary repairs in source order. -/
def validateTagCore (tag : List Char) : List Char :=
  let clean0 := dropTrailingHyphens (dropLeadingHyphens
    (replaceInvalidRuns (tag.map Char.toLower)))
  let clean1 := if startsWithLower clean0 then clean0 else "tag-".data ++ clean0
  let clean2 := if endsWithAlnum clean1 then clean1 else clean1 ++ ['0']
  let clean3 := if clean2.length < 2 then "tag-".data ++ clean2 else clean2
  if clean3.length > 64 then
    let t := dropTrailingHyphens (clean3.take 64)
    if endsWithAlnum t then t else t.take 63 ++ ['0']
  else clean3

/-- `validateTag(tag)`: throws on a falsy (empty) string, otherwise returns the
repaired tag. -/
def validateTag (tag : String) : Except String String :=
  if tag = "" then .error "Tag must be a non-empty string"
  else .ok (String.mk (validateTagCore tag.data))

/-- The documented output contract of `validateTag` (its own doc comment and
spec section 6): length 2 to 64, starts with a letter, ends with a letter or
digit, every character in `[a-z0-9-]`. -/
def tagContractOK (s : String) : Bool :=
  2 ≤ s.length && s.length ≤ 64 && startsWithLower s.data &&
    endsWithAlnum s.data && s.data.all isTagChar

/-- The input exhibiting the truncation defect: a letter, 63 hyphens, a letter
(65 characters, all in the tag character class). -/
def c4Input : String := "a" ++ String.mk (List.replicate 63 '-') ++ "b"

/- ===== Tree injection: `addTestsToItems` (spec-hub-client.js) ===== -/

/-- The `script` object of a collection event: `{type, exec}`. -/
structure ScriptObj where
  stype : String
  exec : List String
deriving DecidableEq

/-- A collection event: `{listen, script}`. -/
structure Event where
  listen : String
  script : ScriptObj
deriving DecidableEq

/-- A test script value in the script map: the generator produces arrays of
lines, the injector also accepts a plain string and splits it on newlines. -/
inductive TScript where
  | arr (lines : List String)
  | str (s : String)
deriving DecidableEq

/-- JS truthiness of a script value: an array is always truthy, a string is
truthy iff nonempty. -/
def TScript.truthy : TScript → Bool
  | .arr _ => true
  | .str s => s ≠ ""

/-- `Array.isArray(testScript) ? testScript : testScript.split('\n')` -/
def TScript.execLines : TScript → List String
  | .arr l => l
  | .str s => s.splitOn "\n"

/-- A collection item: `name`, an optional `request` attribute (a JSON object,
modelled by its serialized form — present means truthy), an `event` list
(absent and empty both normalize to `[]` via `item.event || []`), and an
optional nested `item` list (`item.item`, present means the node is recursed
into as a folder). -/
inductive Item where
  | mk (name : String) (request : Option String) (event : List Event)
      (children : Option (List Item))

/-- The `name` attribute of an item. -/
def Item.name : Item → String
  | .mk n _ _ _ => n

/-- The `request` attribute of an item. -/
def Item.request : Item → Option String
  | .mk _ r _ _ => r

/-- The `event` list of an item. -/
def Item.event : Item → List Event
  | .mk _ _ e _ => e

/-- The nested `item` list of an item. -/
def Item.children : Item → Option (List Item)
  | .mk _ _ _ c => c

/-- `a || b` over possibly-absent script values, with JS truthiness. -/
def jsOrScript (a b : Option TScript) : Option TScript :=
  match a with
  | some x => if x.truthy then some x else b
  | none => b

/-- `testScripts[item.name] || testScripts['default']` followed by the
`if (testScript)` guard: the script the injector will install on a leaf named
`name`, none when the lookup chain ends falsy. -/
def effectiveScript (ts : String → Option TScript) (name : String) :
    Option TScript :=
  match jsOrScript (ts name) (ts "default") with
  | some s => if s.truthy then some s else none
  | none => none

/-- The event the injector pushes for a script. -/
def testEventFor (s : TScript) : Event :=
  ⟨"test", ⟨"text/javascript", s.execLines⟩⟩

/-- `e.listen !== 'test'`, the filter keeping non-test events. -/
def nonTestEvent (e : Event) : Bool := e.listen ≠ "test"

mutual

/-- One step of `addTestsToItems` on a single item: if the item has a
`request`, its test events are removed and a single new test event is pushed
(when the script lookup is truthy), then the injector recurses into `item.item`
when present. -/
def injectItem (ts : String → Option TScript) : Item → Item
  | .mk name request event children =>
    let event1 :=
      if request.isSome then
        match effectiveScript ts name with
        | some s => event.filter nonTestEvent ++ [testEventFor s]
        | none => event
      else event
    .mk name request event1
      (match children with
       | some cs => some (injectItems ts cs)
       | none => none)

/-- `addTestsToItems(items, testScripts)`: the `for (const item of items)`
loop, item by item. -/
def injectItems (ts : String → Option TScript) : List Item → List Item
  | [] => []
  | i :: rest => injectItem ts i :: injectItems ts rest

end

mutual

/-- The relation claim C2 asserts between an item and its injected image:
name, request and folder shape are unchanged; on a leaf the non-test events
are exactly the original ones and exactly one test event is present; on a
non-leaf the events are untouched. -/
def injectedOKItem : Item → Item → Bool
  | .mk n req ev ch, .mk n2 req2 ev2 ch2 =>
    decide (n2 = n) && decide (req2 = req) &&
    (if req.isSome then
        decide (ev2.filter nonTestEvent = ev.filter nonTestEvent) &&
        decide (ev2.countP (fun e => e.listen = "test") = 1)
      else decide (ev2 = ev)) &&
    (match ch, ch2 with
     | none, none => true
     | some cs, some cs2 => injectedOKItems cs cs2
     | _, _ => false)

/-- Pointwise `injectedOKItem` over sibling lists of equal length. -/
def injectedOKItems : List Item → List Item → Bool
  | [], [] => true
  | i :: rest, i2 :: rest2 => injectedOKItem i i2 && injectedOKItems rest rest2
  | _, _ => false

end

/- ===== Poll loops: `waitForCollectionGeneration`, `waitForCollectionSync`,
`generateOrSyncCollection` generate branch (spec-hub-client.js) ===== -/

/-- A collection as the workspace listing or a fetch returns it. -/
structure Coll where
  id : String
  uid : String
  name : String
deriving DecidableEq

/-- The loop of `waitForCollectionGeneration` from attempt `i`: each attempt
re-lists the workspace (the oracle `listings i`; a failed listing call
propagates, as `request` rethrows uncaught here) and returns on a name match;
exhausting the cap throws the timeout error. -/
def waitGenGo (listings : Nat → Except String (List Coll)) (name : String)
    (maxAttempts : Nat) (i : Nat) : Except String Unit :=
  if i < maxAttempts then
    match listings i with
    | .error e => .error e
    | .ok cols =>
      match cols.find? (fun c => c.name = name) with
      | some _ => .ok ()
      | none => waitGenGo listings name maxAttempts (i + 1)
  else
    .error ("Collection generation timed out after " ++
      toString (maxAttempts * 2) ++ " seconds")
termination_by maxAttempts - i

/-- `waitForCollectionGeneration(name, maxAttempts)`. -/
def waitForCollectionGeneration (listings : Nat → Except String (List Coll))
    (name : String) (maxAttempts : Nat) : Except String Unit :=
  waitGenGo listings name maxAttempts 0

/-- How a run of `waitForCollectionSync` ends: an attempt fetched a truthy
collection and the loop returned early, or the attempt cap was exhausted and
the function returned normally after only a `console.warn`. -/
inductive SyncWaitOutcome where
  | found
  | warnTimeout
deriving DecidableEq

/-- The loop of `waitForCollectionSync` from attempt `i`: each attempt fetches
the collection (the oracle `fetches i`; `.error` is a thrown fetch failure,
caught and swallowed by the loop's try/catch; `.ok none` a falsy response).
No outcome is an exception: exhaustion degrades to a warning. -/
def waitSyncGo (fetches : Nat → Except String (Option Coll))
    (maxAttempts : Nat) (i : Nat) : SyncWaitOutcome :=
  if i < maxAttempts then
    match fetches i with
    | .ok (some _) => .found
    | .ok none => waitSyncGo fetches maxAttempts (i + 1)
    | .error _ => waitSyncGo fetches maxAttempts (i + 1)
  else .warnTimeout
termination_by maxAttempts - i

/-- `waitForCollectionSync(collectionId, maxAttempts)`. -/
def waitForCollectionSync (fetches : Nat → Except String (Option Coll))
    (maxAttempts : Nat) : SyncWaitOutcome :=
  waitSyncGo fetches maxAttempts 0

/-- The generate branch of `generateOrSyncCollection` (no existing collection):
POST the generation, wait for it with `waitForCollectionGeneration`, then
re-list the workspace (`finalListing`) and resolve the uid by name, throwing
when the generated collection is not found. -/
def generateNewCollection (listings : Nat → Except String (List Coll))
    (finalListing : Except String (List Coll)) (name : String)
    (maxAttempts : Nat) : Except String String :=
  match waitForCollectionGeneration listings name maxAttempts with
  | .error e => .error e
  | .ok _ =>
    match finalListing with
    | .error e => .error e
    | .ok cols =>
      match cols.find? (fun c => c.name = name) with
      | some c => .ok c.uid
      | none => .error ("Generated collection \"" ++ name ++ "\" not found")

/- ===== Environment generation: `generateEnvironment` (spec-hub-sync.js) ===== -/

/-- A `servers` entry of a parsed spec. -/
structure Server where
  url : String
deriving DecidableEq

/-- The `info` object of a parsed spec. -/
structure ApiInfo where
  title : Option String
  version : Option String
deriving DecidableEq

/-- The slice of a parsed OpenAPI document `generateEnvironment` reads. -/
structure ApiDoc where
  servers : Option (List Server)
  info : Option ApiInfo
deriving DecidableEq

/-- One entry of the generated environment's `values` array. -/
structure EnvVar where
  key : String
  value : String
  vtype : String
  enabled : Bool
deriving DecidableEq

/-- The generated environment document. -/
structure EnvFile where
  name : String
  values : List EnvVar
  scope : String
deriving DecidableEq

/-- `api.info?.title || 'API'`: optional chaining plus a falsy fallback. -/
def apiTitleOr (api : ApiDoc) (fallback : String) : String :=
  match api.info with
  | none => fallback
  | some info =>
    match info.title with
    | none => fallback
    | some t => if t = "" then fallback else t

/-- `generateEnvironment(api)`: `api.servers || [{url: placeholder}]` keeps a
present-but-empty array (an empty array is truthy in JS), and `servers[0].url`
then throws a TypeError, modelled as the `.error` case; otherwise the document
holds exactly baseUrl, RESPONSE_TIME_THRESHOLD and auth_token. -/
def generateEnvironment (api : ApiDoc) : Except String EnvFile :=
  let servers :=
    match api.servers with
    | none => [Server.mk "https://api.example.com"]
    | some l => l
  match servers.head? with
  | none => .error "TypeError: Cannot read properties of undefined (reading 'url')"
  | some s0 =>
    .ok { name := apiTitleOr api "API" ++ " Environment",
          values := [⟨"baseUrl", s0.url, "default", true⟩,
                     ⟨"RESPONSE_TIME_THRESHOLD", "2000", "default", true⟩,
                     ⟨"auth_token", "", "secret", true⟩],
          scope := "environment" }

/- ===== Remote errors and orchestrator control flow: `request`, `sync`
(spec-hub-client.js, spec-hub-sync.js) ===== -/

/-- A fetch response as `request` sees it: `status`, and the JSON body already
serialized (`JSON.stringify(data.error || data)`). `response.ok` is status in
200..299. -/
structure HttpResponse where
  status : Nat
  body : String
deriving DecidableEq

/-- `request(method, endpoint, body)`: a non-2xx response throws an error
carrying the HTTP status code and the response body; a 2xx returns the body. -/
def requestResult (resp : HttpResponse) : Except String String :=
  if 200 ≤ resp.status ∧ resp.status < 300 then .ok resp.body
  else .error ("API Error " ++ toString resp.status ++ ": " ++ resp.body)

/-- Outcomes of the remote steps of `sync` after the spec upload, one oracle
per stage (each `.error` is a thrown remote error). -/
structure StageResults where
  docsGen : Except String String
  smokeGen : Except String String
  smokeInject : Except String Unit
  contractGen : Except String String
  contractInject : Except String Unit
  envUpsert : Except String Unit

/-- The control flow of `sync` over steps 4..7: the docs generation is wrapped
in try/catch (its failure is logged and the run continues), every later stage
is unguarded, so its failure propagates and ends the run. Returns the stages
that started, in order, and the final outcome. -/
def runSyncStages (r : StageResults) (generateSmoke generateContract : Bool) :
    List String × Except String Unit :=
  let afterDocs := ["docs"]
  if generateSmoke then
    match r.smokeGen with
    | .error e => (afterDocs ++ ["smoke"], .error e)
    | .ok _ =>
      match r.smokeInject with
      | .error e => (afterDocs ++ ["smoke"], .error e)
      | .ok _ =>
        if generateContract then
          match r.contractGen with
          | .error e => (afterDocs ++ ["smoke", "contract"], .error e)
          | .ok _ =>
            match r.contractInject with
            | .error e => (afterDocs ++ ["smoke", "contract"], .error e)
            | .ok _ =>
              match r.envUpsert with
              | .error e => (afterDocs ++ ["smoke", "contract", "env"], .error e)
              | .ok _ => (afterDocs ++ ["smoke", "contract", "env"], .ok ())
        else
          match r.envUpsert with
          | .error e => (afterDocs ++ ["smoke", "env"], .error e)
          | .ok _ => (afterDocs ++ ["smoke", "env"], .ok ())
  else if generateContract then
    match r.contractGen with
    | .error e => (afterDocs ++ ["contract"], .error e)
    | .ok _ =>
      match r.contractInject with
      | .error e => (afterDocs ++ ["contract"], .error e)
      | .ok _ =>
        match r.envUpsert with
        | .error e => (afterDocs ++ ["contract", "env"], .error e)
        | .ok _ => (afterDocs ++ ["contract", "env"], .ok ())
  else
    match r.envUpsert with
    | .error e => (afterDocs ++ ["env"], .error e)
    | .ok _ => (afterDocs ++ ["env"], .ok ())

/- ===== Test script generator (test-generator.js), endpoint model ===== -/

/-- A response schema: its declared `type`, its `required` name list, and its
sub-schemas. Modelled from the spec: the parser that produces schemas is an
external collaborator; property and item sub-schemas are abstracted as one
list, enough for the transitive `required` collection. -/
inductive Schema where
  | mk (stype : Option String) (required : List String) (subs : List Schema)

/-- The declared `type` of a schema. -/
def Schema.stype : Schema → Option String
  | .mk t _ _ => t

/-- The direct `required` list of a schema. -/
def Schema.required : Schema → List String
  | .mk _ r _ => r

/-- The sub-schemas of a schema. -/
def Schema.subs : Schema → List Schema
  | .mk _ _ s => s

mutual

/-- Modelled from the spec: `getRequiredFields` of the external parser returns
the transitively-collected `required` field list of a schema — its own
`required` names followed by those of its sub-schemas, recursively. -/
def getRequiredFields : Schema → List String
  | .mk _ req subs => req ++ getRequiredFieldsOfList subs

/-- Transitive `required` collection over a sub-schema list. -/
def getRequiredFieldsOfList : List Schema → List String
  | [] => []
  | s :: rest => getRequiredFields s ++ getRequiredFieldsOfList rest

end

/-- A media-type object of a response's `content` map. -/
structure MediaObj where
  schema : Option Schema

/-- A `ResponseSpec`: `{content?: map[mediaType -> {schema}]}`. -/
structure ResponseSpec where
  content : Option (List (String × MediaObj))

/-- An endpoint descriptor as the generator reads it. `responses` is an
association list in the order JS enumerates the response object's keys. -/
structure Endpoint where
  method : String
  path : String
  name : Option String
  responses : List (String × ResponseSpec)
  security : List String

/-- JS property lookup on an object modelled as an association list. -/
def lookupKey {α : Type} (l : List (String × α)) (k : String) : Option α :=
  (l.find? (fun p => p.1 = k)).map (fun p => p.2)

/-- `Object.keys(endpoint.responses)`. -/
def statusCodesOf (e : Endpoint) : List String :=
  e.responses.map Prod.fst

/-- `code.startsWith(prefixStr)` on the character lists of the strings. -/
def jsStartsWith (s pre : String) : Bool :=
  pre.data.isPrefixOf s.data

/-- `statusCodes.filter(code => code.startsWith('2'))`. -/
def successCodesOf (e : Endpoint) : List String :=
  (statusCodesOf e).filter (fun c => jsStartsWith c "2")

/-- `statusCodes.filter(code => code.startsWith('4') || code.startsWith('5'))`. -/
def errorCodesOf (e : Endpoint) : List String :=
  (statusCodesOf e).filter (fun c => jsStartsWith c "4" || jsStartsWith c "5")

/-- Modelled from the spec: `getResponseSchema(responses, code)` of the
external parser yields the schema declared under the given response key (first
media type of its `content`), if any. -/
def getResponseSchema (responses : List (String × ResponseSpec))
    (code : String) : Option Schema :=
  match lookupKey responses code with
  | none => none
  | some r =>
    match r.content with
    | none => none
    | some media =>
      match media.head? with
      | none => none
      | some m => m.2.schema

/-- `endpoint.responses['200'] || endpoint.responses['201']`. -/
def successResponseOf (e : Endpoint) : Option ResponseSpec :=
  match lookupKey e.responses "200" with
  | some r => some r
  | none => lookupKey e.responses "201"

/-- `getResponseSchema(responses, '200') || getResponseSchema(responses,
'201')` followed by the `schemaInfo?.schema` access: the schema found under
response key 200, else 201. -/
def schemaInfoOf (e : Endpoint) : Option Schema :=
  match getResponseSchema e.responses "200" with
  | some s => some s
  | none => getResponseSchema e.responses "201"

/-- `contentTypes[0].split(';')[0]`: the characters before the first
semicolon. -/
def headSplitSemicolon (s : String) : String :=
  String.mk (s.data.takeWhile (fun c => c ≠ ';'))

/-- Smoke script header comment. -/
def smokeHeaderBlock (e : Endpoint) : List String :=
  ["// Smoke tests for: " ++ e.method ++ " " ++ e.path,
   "// Basic health checks - generated from OpenAPI spec",
   ""]

/-- Smoke status block: oneOf-style check over all declared 2xx codes. -/
def smokeStatusBlock (successCodes : List String) : List String :=
  if successCodes.length > 0 then
    ["// Status code validation",
     "pm.test(\"Status code is success\", function () \x7b",
     "    pm.expect(pm.response.code).to.be.oneOf([" ++
       String.intercalate ", " successCodes ++ "]);",
     "\x7d);",
     ""]
  else []

/-- Smoke latency and body-not-empty checks (always emitted). -/
def smokeTailBlock : List String :=
  ["// Performance check",
   "pm.test(\"Response time is acceptable\", function () \x7b",
   "    const threshold = parseInt(pm.environment.get(\"RESPONSE_TIME_THRESHOLD\") || \"2000\");",
   "    pm.expect(pm.response.responseTime).to.be.below(threshold);",
   "\x7d);",
   "",
   "// Response body exists",
   "pm.test(\"Response body is not empty\", function () \x7b",
   "    if (pm.response.code >= 200 && pm.response.code < 300) \x7b",
   "        const contentType = pm.response.headers.get(\"Content-Type\");",
   "        if (contentType && contentType.includes(\"application/json\")) \x7b",
   "            const jsonData = pm.response.json();",
   "            pm.expect(jsonData).to.not.be.undefined;",
   "        \x7d",
   "    \x7d",
   "\x7d);"]

/-- `generateSmokeTestScript(endpoint)`: header, oneOf status check when a 2xx
code is declared, the latency check, and the body-not-empty check, in source
push order. -/
def generateSmokeTestScript (e : Endpoint) : List String :=
  smokeHeaderBlock e ++ smokeStatusBlock (successCodesOf e) ++ smokeTailBlock

/-- Contract script header comment. -/
def contractHeader (e : Endpoint) : List String :=
  ["// Contract tests for: " ++ e.method ++ " " ++ e.path,
   "// Comprehensive validation - generated from OpenAPI spec",
   ""]

/-- Contract status block: exact check of `successCodes[0]`. -/
def contractStatusBlock (successCodes : List String) : List String :=
  if successCodes.length > 0 then
    ["// Status code validation",
     "pm.test(\"Status code is " ++ successCodes.headD "" ++ "\", function () \x7b",
     "    pm.response.to.have.status(" ++ successCodes.headD "" ++ ");",
     "\x7d);",
     ""]
  else []

/-- Contract latency block. -/
def contractLatencyBlock : List String :=
  ["// Performance baseline check",
   "pm.test(\"Response time is acceptable\", function () \x7b",
   "    const threshold = parseInt(pm.environment.get(\"RESPONSE_TIME_THRESHOLD\") || \"2000\");",
   "    pm.expect(pm.response.responseTime).to.be.below(threshold);",
   "\x7d);",
   ""]

/-- Contract content-type block, from `successResponse?.content`. -/
def contractCTBlock (successResponse : Option ResponseSpec) : List String :=
  match successResponse with
  | none => []
  | some r =>
    match r.content with
    | none => []
    | some media =>
      if (media.map Prod.fst).length > 0 then
        ["// Content-Type validation",
         "pm.test(\"Content-Type is " ++
           headSplitSemicolon ((media.map Prod.fst).headD "") ++
           "\", function () \x7b",
         "    pm.response.to.have.header(\"Content-Type\");",
         "    const contentType = pm.response.headers.get(\"Content-Type\");",
         "    pm.expect(contentType).to.include(\"" ++
           headSplitSemicolon ((media.map Prod.fst).headD "") ++ "\");",
         "\x7d);",
         ""]
      else []

/-- The per-field assertion of the required-field check. -/
def requiredFieldLine (field : String) : String :=
  "    pm.expect(dataToCheck).to.have.property('" ++ field ++ "');"

/-- Contract schema block plus required-field block (both guarded by
`schemaInfo?.schema`). -/
def contractSchemaBlock (schemaInfo : Option Schema) : List String :=
  match schemaInfo with
  | none => []
  | some s =>
    (["// JSON Schema validation",
      "pm.test(\"Response matches schema structure\", function () \x7b",
      "    const jsonData = pm.response.json();",
      "    ",
      "    // Basic type validation"] ++
     (if s.stype = some "object" then
        ["    pm.expect(jsonData).to.be.an('object');"]
      else if s.stype = some "array" then
        ["    pm.expect(jsonData).to.be.an('array');"]
      else []) ++
     ["\x7d);", ""]) ++
    (if (getRequiredFields s).length > 0 then
       ["// Required field validation",
        "pm.test(\"Response has required fields\", function () \x7b",
        "    const jsonData = pm.response.json();",
        "    const dataToCheck = Array.isArray(jsonData) ? (jsonData[0] || \x7b\x7d) : jsonData;",
        "    "] ++
       (getRequiredFields s).map requiredFieldLine ++
       ["\x7d);", ""]
     else [])

/-- Contract error-shape block. -/
def contractErrorBlock (errorCodes : List String) : List String :=
  if errorCodes.length > 0 then
    ["// Error response structure validation",
     "pm.test(\"Error responses have proper structure\", function () \x7b",
     "    if (pm.response.code >= 400) \x7b",
     "        const jsonData = pm.response.json();",
     "        const hasErrorField = jsonData.hasOwnProperty('error') || jsonData.hasOwnProperty('message') || jsonData.hasOwnProperty('detail');",
     "        pm.expect(hasErrorField).to.be.true;",
     "    \x7d",
     "\x7d);",
     ""]
  else []

/-- `generateContractTestScript(endpoint)`: the blocks in source push order. -/
def generateContractTestScript (e : Endpoint) : List String :=
  contractHeader e ++
  contractStatusBlock (successCodesOf e) ++
  contractLatencyBlock ++
  contractCTBlock (successResponseOf e) ++
  contractSchemaBlock (schemaInfoOf e) ++
  contractErrorBlock (errorCodesOf e)

/-- `generateDefaultSmokeTestScript()`. -/
def generateDefaultSmokeTestScript : List String :=
  ["// Default smoke tests",
   "pm.test(\"Status code is success\", function () \x7b",
   "    pm.expect(pm.response.code).to.be.oneOf([200, 201, 204]);",
   "\x7d);",
   "",
   "pm.test(\"Response time is acceptable\", function () \x7b",
   "    const threshold = parseInt(pm.environment.get(\"RESPONSE_TIME_THRESHOLD\") || \"2000\");",
   "    pm.expect(pm.response.responseTime).to.be.below(threshold);",
   "\x7d);"]

/-- `generateDefaultContractTestScript()`. -/
def generateDefaultContractTestScript : List String :=
  ["// Default contract tests",
   "pm.test(\"Status code is valid\", function () \x7b",
   "    pm.expect(pm.response.code).to.be.oneOf([200, 201, 204]);",
   "\x7d);",
   "",
   "pm.test(\"Response time is acceptable\", function () \x7b",
   "    const threshold = parseInt(pm.environment.get(\"RESPONSE_TIME_THRESHOLD\") || \"2000\");",
   "    pm.expect(pm.response.responseTime).to.be.below(threshold);",
   "\x7d);",
   "",
   "pm.test(\"Response body is valid JSON\", function () \x7b",
   "    pm.response.to.be.json;",
   "\x7d);"]

/-- `generateTestScript(endpoint, level)`: smoke exactly when the level string
equals `'smoke'`, contract otherwise. -/
def generateTestScript (e : Endpoint) (level : String) : List String :=
  if level = "smoke" then generateSmokeTestScript e
  else generateContractTestScript e

/-- `endpoint.name || method + ' ' + path` with JS truthiness of the name. -/
def endpointTestName (e : Endpoint) : String :=
  match e.name with
  | some n => if n = "" then e.method ++ " " ++ e.path else n
  | none => e.method ++ " " ++ e.path

/-- A JS object property assignment: later writes shadow earlier ones. -/
def mapUpdate (m : String → Option (List String)) (k : String)
    (v : List String) : String → Option (List String) :=
  fun q => if q = k then some v else m q

/-- The `for (const endpoint of endpoints)` loop filling the script map. -/
def insertEndpointScripts (level : String) :
    List Endpoint → (String → Option (List String)) →
    (String → Option (List String))
  | [], m => m
  | e :: rest, m =>
    insertEndpointScripts level rest
      (mapUpdate m (endpointTestName e) (generateTestScript e level))

/-- `generateTestScriptsForSpec(api, level)` viewed past the external endpoint
extraction: per-endpoint scripts in order, then the unconditional `'default'`
assignment, last. -/
def generateTestScriptsForSpec (endpoints : List Endpoint) (level : String) :
    String → Option (List String) :=
  mapUpdate (insertEndpointScripts level endpoints (fun _ => none)) "default"
    (if level = "smoke" then generateDefaultSmokeTestScript
     else generateDefaultContractTestScript)

/- ===== Assertion sets of generated scripts ===== -/

/-- The opener of a Postman test assertion in a generated script line. -/
def pmTestOpen : List Char := "pm.test(\"".data

/-- The assertion name a script line declares: for a line opening a `pm.test`
the characters of its name (up to the closing quote), else none. -/
def extractTestName (cs : List Char) : Option (List Char) :=
  if pmTestOpen.isPrefixOf cs then
    some ((cs.drop pmTestOpen.length).takeWhile (fun c => c ≠ '"'))
  else none

/-- The set (as an ordered list) of assertion names of a generated script. -/
def assertionNames (script : List String) : List (List Char) :=
  script.filterMap (fun line => extractTestName line.data)

/-- The endpoint of the C5 counterexample: `GET /tasks` declaring a 200 JSON
response with no schema. -/
def c5Endpoint : Endpoint :=
  { method := "GET", path := "/tasks", name := some "List tasks",
    responses := [("200",
      { content := some [("application/json", { schema := none })] })],
    security := [] }

/-- The endpoint of the C6 scenario: `GET /tasks/:taskId` declaring a 200 JSON
response with schema `type: object`, `required: [id, title]`. -/
def c6Endpoint : Endpoint :=
  { method := "GET", path := "/tasks/\x7btaskId\x7d", name := some "Get a specific task",
    responses := [("200",
      { content := some [("application/json",
          { schema := some (Schema.mk (some "object") ["id", "title"] []) })] })],
    security := [] }

/- ===== Concrete fixtures used by counterexamples and witnesses ===== -/

/-- Stage oracle in which only the docs generation fails. -/
def c8Stages : StageResults :=
  { docsGen := .error "API Error 500: \x7b\x7d",
    smokeGen := .ok "smoke-uid", smokeInject := .ok (),
    contractGen := .ok "contract-uid", contractInject := .ok (),
    envUpsert := .ok () }

/-- A leaf request item named `x` with no events. -/
def c7Leaf : Item := .mk "x" (some "GET /x") [] none

/-- A script map with no entry at all — in particular no `default`. -/
def emptyScriptMap : String → Option TScript := fun _ => none

/-- A script map holding only a `default` array entry. -/
def defaultOnlyMap : String → Option TScript :=
  fun k => if k = "default" then some (.arr ["pm.test();"]) else none

/-- A small nested tree: a folder holding a leaf with a pre-request event and
a stale test event, next to a bare leaf, next to an empty folder. -/
def demoTree : List Item :=
  [Item.mk "Tasks" none []
    (some [Item.mk "Get a specific task" (some "GET /tasks/1")
            [⟨"prerequest", ⟨"text/javascript", ["// setup"]⟩⟩,
             ⟨"test", ⟨"text/javascript", ["// stale"]⟩⟩] none,
           Item.mk "List tasks" (some "GET /tasks") [] none]),
   Item.mk "Misc" none [] (some [])]

/-- An endpoint whose display name is exactly `default`. -/
def defaultNamedEndpoint : Endpoint :=
  { method := "GET", path := "/a", name := some "default",
    responses := [], security := [] }

/-- First of two endpoints sharing the display name `x`. -/
def dupEndpointA : Endpoint :=
  { method := "GET", path := "/a", name := some "x",
    responses := [], security := [] }

/-- Second of two endpoints sharing the display name `x`. -/
def dupEndpointB : Endpoint :=
  { method := "POST", path := "/b", name := some "x",
    responses := [], security := [] }

/- ======================= Theorems ======================= -/

/-- C1: `uploadSpec` with a truthy spec id issues exactly one PATCH against
that id's files endpoint and returns the same id; with a null id it issues
exactly one POST create and returns the response id; hence the sync flow,
when the lookup finds a spec of that name, performs a single PATCH against
the previously returned identifier and never a create. -/
theorem c1_spec_upsert_idempotent :
    (∀ ws name content id postId, id ≠ "" →
      uploadSpec ws name content (some id) postId =
        { calls := [⟨"PATCH", "/specs/" ++ id ++ "/files/index.json",
            .patchFiles content⟩],
          returnedId := id }) ∧
    (∀ ws name content postId,
      uploadSpec ws name content none postId =
        { calls := [⟨"POST", "/specs?workspaceId=" ++ ws,
            .createSpec name content⟩],
          returnedId := postId }) ∧
    (∀ ws specs name content postId s,
      findSpecByName specs name = some s → s.id ≠ "" →
      syncUpsertSpec ws specs name content postId =
        { calls := [⟨"PATCH", "/specs/" ++ s.id ++ "/files/index.json",
            .patchFiles content⟩],
          returnedId := s.id }) := by
  refine ⟨?_, ?_, ?_⟩
  · intro ws name content id postId h
    simp [uploadSpec, truthyOptStr, h]
  · intro ws name content postId
    simp [uploadSpec, truthyOptStr]
  · intro ws specs name content postId s hfind hid
    simp [syncUpsertSpec, hfind, uploadSpec, truthyOptStr, hid]

/-- Witness for C1 at concrete inputs. -/
theorem c1_witness :
    uploadSpec "ws1" "Task API" "content" (some "spec1") "post1" =
      { calls := [⟨"PATCH", "/specs/spec1/files/index.json",
          .patchFiles "content"⟩],
        returnedId := "spec1" } ∧
    syncUpsertSpec "ws1" [⟨"spec1", "Task API"⟩] "Task API" "content" "post1" =
      { calls := [⟨"PATCH", "/specs/spec1/files/index.json",
          .patchFiles "content"⟩],
        returnedId := "spec1" } :=
  ⟨c1_spec_upsert_idempotent.1 "ws1" "Task API" "content" "spec1" "post1"
      (by decide),
   c1_spec_upsert_idempotent.2.2 "ws1" [⟨"spec1", "Task API"⟩] "Task API"
      "content" "post1" ⟨"spec1", "Task API"⟩ (by decide) (by decide)⟩

/-- C4 (code bug): on a 65-character tag (letter, 63 hyphens, letter) the
truncation step strips down to a single character, so the output violates the
documented 2..64-length contract and `validateTag` is not idempotent:
re-validating the output `"a"` yields `"tag-a"`. -/
theorem c4_validateTag_truncation_bug :
    validateTag c4Input = .ok "a" ∧
    tagContractOK "a" = false ∧
    validateTag "a" = .ok "tag-a" ∧
    ("a" : String) ≠ "tag-a" := by
  refine ⟨by rfl, by rfl, by rfl, by decide⟩

/-- C7 (counterexample): a leaf whose name matches no key of a script map with
no `default` entry is silently skipped — the tree comes back unchanged and the
leaf still has no test event; no error of any kind is raised (the injector is
a total function on trees). This refutes the claim that the injector asserts
the violated map invariant. -/
theorem c7_counterexample :
    injectItems emptyScriptMap [c7Leaf] = [c7Leaf] ∧
    (injectItem emptyScriptMap c7Leaf).event.countP
      (fun e => e.listen = "test") = 0 := by
  exact ⟨rfl, rfl⟩

/-- C7 (amended): when a leaf's name matches no key in the script map and the
map has no `default` key, the injector silently skips the leaf: name, request
and events are left exactly as they were, so the leaf is left without an
injected test event, and no error is raised. -/
theorem c7_silent_skip (ts : String → Option TScript) (n : String)
    (req : Option String) (ev : List Event) (ch : Option (List Item))
    (h1 : ts n = none) (h2 : ts "default" = none) :
    (injectItem ts (.mk n req ev ch)).name = n ∧
    (injectItem ts (.mk n req ev ch)).request = req ∧
    (injectItem ts (.mk n req ev ch)).event = ev := by
  have heff : effectiveScript ts n = none := by
    simp [effectiveScript, jsOrScript, h1, h2]
  cases req <;> simp [injectItem, heff, Item.name, Item.request, Item.event]

/-- Witness for C7's amended statement at a concrete leaf and empty map. -/
theorem c7_witness :
    (injectItem emptyScriptMap c7Leaf).name = "x" ∧
    (injectItem emptyScriptMap c7Leaf).request = some "GET /x" ∧
    (injectItem emptyScriptMap c7Leaf).event = [] :=
  c7_silent_skip emptyScriptMap "x" (some "GET /x") [] none rfl rfl

/-- C8 (counterexample): with only the docs generation failing (a non-2xx
remote error), the orchestrator still runs the smoke, contract and environment
stages and finishes successfully — the docs failure is caught and logged, not
fatal. This refutes the claim that such a failure aborts the run with no
partial continuation. -/
theorem c8_counterexample :
    runSyncStages c8Stages true true =
      (["docs", "smoke", "contract", "env"], .ok ()) := by
  rfl

/-- C8 (amended): a non-2xx response is surfaced as an error carrying the HTTP
status code and response body; a failure in the smoke or contract stage aborts
the run before any later stage starts; but a docs-generation failure is caught
inside `sync`, so whenever every later stage succeeds the run completes
successfully regardless of the docs outcome. -/
theorem c8_remote_error_policy :
    (∀ resp : HttpResponse, ¬(200 ≤ resp.status ∧ resp.status < 300) →
      requestResult resp =
        .error ("API Error " ++ toString resp.status ++ ": " ++ resp.body)) ∧
    (∀ r gc e, r.smokeGen = .error e →
      runSyncStages r true gc = (["docs", "smoke"], .error e)) ∧
    (∀ r e, r.contractGen = .error e →
      runSyncStages r false true = (["docs", "contract"], .error e)) ∧
    (∀ r gs gc u1 u2, r.smokeGen = .ok u1 → r.smokeInject = .ok () →
      r.contractGen = .ok u2 → r.contractInject = .ok () →
      r.envUpsert = .ok () → (runSyncStages r gs gc).2 = .ok ()) := by
  refine ⟨?_, ?_, ?_, ?_⟩
  · intro resp h
    simp [requestResult, h]
  · intro r gc e h
    simp [runSyncStages, h]
  · intro r e h
    simp [runSyncStages, h]
  · intro r gs gc u1 u2 h1 h2 h3 h4 h5
    cases gs <;> cases gc <;> simp [runSyncStages, h1, h2, h3, h4, h5]

/-- Witness for C8's amended statement at concrete stage outcomes. -/
theorem c8_witness :
    requestResult ⟨500, "\x7b\x7d"⟩ = .error "API Error 500: \x7b\x7d" ∧
    runSyncStages { c8Stages with smokeGen := .error "API Error 429: rate" }
        true true = (["docs", "smoke"], .error "API Error 429: rate") ∧
    (runSyncStages c8Stages true true).2 = .ok () :=
  ⟨by simpa using c8_remote_error_policy.1 ⟨500, "\x7b\x7d"⟩ (by decide),
   c8_remote_error_policy.2.1 _ true "API Error 429: rate" rfl,
   c8_remote_error_policy.2.2.2 c8Stages true true "smoke-uid" "contract-uid"
     rfl rfl rfl rfl rfl⟩

/-- C9 (counterexample): a parsed spec that declares an empty `servers` array
declares no server, yet `generateEnvironment` does not fall back to the
placeholder: the empty array is truthy, `servers[0].url` throws a TypeError,
and no environment document is produced at all. -/
theorem c9_counterexample :
    generateEnvironment { servers := some [], info := none } =
      .error "TypeError: Cannot read properties of undefined (reading 'url')" := by
  rfl

/-- C9 (amended): the variable set is exactly baseUrl,
RESPONSE_TIME_THRESHOLD (value 2000) and auth_token (empty, type secret);
baseUrl is the first declared server's url, and the placeholder applies only
when the `servers` field is absent — a present-but-empty `servers` array
instead crashes the generator with a TypeError. -/
theorem c9_environment_contents (api : ApiDoc) :
    (api.servers = none →
      generateEnvironment api = .ok
        { name := apiTitleOr api "API" ++ " Environment",
          values := [⟨"baseUrl", "https://api.example.com", "default", true⟩,
                     ⟨"RESPONSE_TIME_THRESHOLD", "2000", "default", true⟩,
                     ⟨"auth_token", "", "secret", true⟩],
          scope := "environment" }) ∧
    (∀ s0 rest, api.servers = some (s0 :: rest) →
      generateEnvironment api = .ok
        { name := apiTitleOr api "API" ++ " Environment",
          values := [⟨"baseUrl", s0.url, "default", true⟩,
                     ⟨"RESPONSE_TIME_THRESHOLD", "2000", "default", true⟩,
                     ⟨"auth_token", "", "secret", true⟩],
          scope := "environment" }) ∧
    (api.servers = some [] →
      generateEnvironment api =
        .error "TypeError: Cannot read properties of undefined (reading 'url')") := by
  refine ⟨?_, ?_, ?_⟩
  · intro h
    simp [generateEnvironment, h]
  · intro s0 rest h
    simp [generateEnvironment, h]
  · intro h
    simp [generateEnvironment, h]

/-- Witness for C9's amended statement at concrete documents. -/
theorem c9_witness :
    generateEnvironment { servers := none, info := some ⟨some "Task API", none⟩ } =
      .ok { name := "Task API Environment",
            values := [⟨"baseUrl", "https://api.example.com", "default", true⟩,
                       ⟨"RESPONSE_TIME_THRESHOLD", "2000", "default", true⟩,
                       ⟨"auth_token", "", "secret", true⟩],
            scope := "environment" } ∧
    generateEnvironment { servers := some [⟨"https://api.tasks.dev"⟩],
                          info := none } =
      .ok { name := "API Environment",
            values := [⟨"baseUrl", "https://api.tasks.dev", "default", true⟩,
                       ⟨"RESPONSE_TIME_THRESHOLD", "2000", "default", true⟩,
                       ⟨"auth_token", "", "secret", true⟩],
            scope := "environment" } :=
  ⟨by simpa using (c9_environment_contents (ApiDoc.mk none (some ⟨some "Task API", none⟩))).1 rfl,
   by simpa using (c9_environment_contents (ApiDoc.mk (some [⟨"https://api.tasks.dev"⟩]) none)).2.1 ⟨"https://api.tasks.dev"⟩ [] rfl⟩

/-- Lookup through the endpoint loop of `generateTestScriptsForSpec`: a key
resolves to the script of the last endpoint bearing that display name, else to
the accumulator. -/
theorem insertEndpointScripts_lookup (level : String) :
    ∀ (es : List Endpoint) (m : String → Option (List String)) (k : String),
      insertEndpointScripts level es m k =
        match es.reverse.find? (fun e => endpointTestName e = k) with
        | some e => some (generateTestScript e level)
        | none => m k
  | [], m, k => by simp [insertEndpointScripts]
  | e :: rest, m, k => by
    rw [insertEndpointScripts,
      insertEndpointScripts_lookup level rest
        (mapUpdate m (endpointTestName e) (generateTestScript e level)) k]
    simp only [List.reverse_cons, List.find?_append]
    cases hfind : rest.reverse.find? (fun e2 => endpointTestName e2 = k) with
    | some e2 => simp [Option.or]
    | none =>
      by_cases hk : endpointTestName e = k
      · subst hk
        simp [Option.or, List.find?, mapUpdate]
      · have hk2 : ¬ k = endpointTestName e := fun h => hk h.symm
        simp [Option.or, List.find?, hk, mapUpdate, hk2]

/-- C10: the returned script map binds `default` to the tier's fixed default
template, assigned last and unconditionally — an endpoint whose display name
is `default` is overwritten by the template — and any other key resolves to
the script of the **last** endpoint with that display name, so a later
duplicate overwrites an earlier one. -/
theorem c10_default_assigned_last :
    (∀ es level, generateTestScriptsForSpec es level "default" =
      some (if level = "smoke" then generateDefaultSmokeTestScript
            else generateDefaultContractTestScript)) ∧
    (∀ es level k, k ≠ "default" →
      generateTestScriptsForSpec es level k =
        (es.reverse.find? (fun e => endpointTestName e = k)).map
          (fun e => generateTestScript e level)) := by
  constructor
  · intro es level
    simp [generateTestScriptsForSpec, mapUpdate]
  · intro es level k hk
    simp only [generateTestScriptsForSpec, mapUpdate, if_neg hk]
    rw [insertEndpointScripts_lookup]
    cases es.reverse.find? (fun e => endpointTestName e = k) <;> simp

/-- Witness for C10: an endpoint named `default` is shadowed by the default
contract template, and of two endpoints sharing the name `x` the later one's
script wins. -/
theorem c10_witness :
    generateTestScriptsForSpec [defaultNamedEndpoint] "contract" "default" =
      some generateDefaultContractTestScript ∧
    generateTestScriptsForSpec [dupEndpointA, dupEndpointB] "contract" "x" =
      some (generateContractTestScript dupEndpointB) :=
  ⟨by simpa using c10_default_assigned_last.1 [defaultNamedEndpoint] "contract",
   by simpa [dupEndpointA, dupEndpointB, endpointTestName, generateTestScript]
      using c10_default_assigned_last.2 [dupEndpointA, dupEndpointB] "contract"
        "x" (by decide)⟩

/-- Generation-wait exhaustion: if from attempt `i` on every attempt lists
successfully but never contains the name, the loop ends in the timeout error. -/
theorem waitGenGo_timeout (listings : Nat → Except String (List Coll))
    (name : String) (maxA i : Nat)
    (h : ∀ j, i ≤ j → j < maxA → ∃ cols, listings j = .ok cols ∧
      cols.find? (fun c => c.name = name) = none) :
    waitGenGo listings name maxA i =
      .error ("Collection generation timed out after " ++
        toString (maxA * 2) ++ " seconds") := by
  rw [waitGenGo]
  by_cases hi : i < maxA
  · obtain ⟨cols, hl, hf⟩ := h i le_rfl hi
    rw [if_pos hi]
    simp only [hl, hf]
    exact waitGenGo_timeout listings name maxA (i + 1)
      (fun j hj1 hj2 => h j (Nat.le_of_succ_le hj1) hj2)
  · rw [if_neg hi]
termination_by maxA - i

/-- Sync-wait exhaustion: if from attempt `i` on every fetch fails or returns
a falsy value, the loop ends in the warning outcome — a normal return. -/
theorem waitSyncGo_timeout (fetches : Nat → Except String (Option Coll))
    (maxA i : Nat)
    (h : ∀ j, i ≤ j → j < maxA →
      fetches j = .ok none ∨ ∃ e, fetches j = .error e) :
    waitSyncGo fetches maxA i = .warnTimeout := by
  rw [waitSyncGo]
  by_cases hi : i < maxA
  · rw [if_pos hi]
    have step : waitSyncGo fetches maxA (i + 1) = .warnTimeout :=
      waitSyncGo_timeout fetches maxA (i + 1)
        (fun j hj1 hj2 => h j (Nat.le_of_succ_le hj1) hj2)
    rcases h i le_rfl hi with hn | ⟨e, he⟩
    · simp only [hn]
      exact step
    · simp only [he]
      exact step
  · rw [if_neg hi]
termination_by maxA - i

/-- Sync-wait swallows failures: fetch errors before a successful attempt `k`
are retried, and the loop ends in the found outcome. -/
theorem waitSyncGo_found (fetches : Nat → Except String (Option Coll))
    (maxA i k : Nat) (c : Coll) (hik : i ≤ k) (hk : k < maxA)
    (herr : ∀ j, i ≤ j → j < k → ∃ e, fetches j = .error e)
    (hok : fetches k = .ok (some c)) :
    waitSyncGo fetches maxA i = .found := by
  rw [waitSyncGo, if_pos (lt_of_le_of_lt hik hk)]
  rcases Nat.eq_or_lt_of_le hik with heq | hlt
  · subst heq
    simp only [hok]
  · obtain ⟨e, he⟩ := herr i le_rfl hlt
    simp only [he]
    exact waitSyncGo_found fetches maxA (i + 1) k c hlt hk
      (fun j hj1 hj2 => herr j (Nat.le_of_succ_le hj1) hj2) hok
termination_by maxA - i

/-- C3: the two poll loops diverge on exhaustion — the generation wait, when
no attempt's listing contains the requested name, throws the timeout error
(and the generate branch returns a uid only when the final listing confirms a
collection of that name with that uid), while the sync wait, on exhaustion,
returns normally with the warning outcome, and a fetch failure during a
sync-poll attempt is swallowed and retried rather than escalated. -/
theorem c3_poll_exhaustion_policies :
    (∀ listings name maxA,
      (∀ j, j < maxA → ∃ cols, listings j = .ok cols ∧
        cols.find? (fun c => c.name = name) = none) →
      waitForCollectionGeneration listings name maxA =
        .error ("Collection generation timed out after " ++
          toString (maxA * 2) ++ " seconds")) ∧
    (∀ listings finalListing name maxA uid,
      generateNewCollection listings finalListing name maxA = .ok uid →
      ∃ cols c, finalListing = .ok cols ∧
        cols.find? (fun c2 => c2.name = name) = some c ∧ c.uid = uid) ∧
    (∀ fetches maxA,
      (∀ j, j < maxA → fetches j = .ok none ∨ ∃ e, fetches j = .error e) →
      waitForCollectionSync fetches maxA = .warnTimeout) ∧
    (∀ fetches maxA k c, k < maxA →
      (∀ j, j < k → ∃ e, fetches j = .error e) →
      fetches k = .ok (some c) →
      waitForCollectionSync fetches maxA = .found) := by
  refine ⟨?_, ?_, ?_, ?_⟩
  · intro listings name maxA h
    exact waitGenGo_timeout listings name maxA 0 (fun j _ hj => h j hj)
  · intro listings finalListing name maxA uid h
    unfold generateNewCollection at h
    cases hw : waitForCollectionGeneration listings name maxA with
    | error e => simp [hw] at h
    | ok u =>
      simp only [hw] at h
      cases hf : finalListing with
      | error e => simp [hf] at h
      | ok cols =>
        simp only [hf] at h
        cases hfind : cols.find? (fun c2 => c2.name = name) with
        | none => simp [hfind] at h
        | some c =>
          simp only [hfind] at h
          exact ⟨cols, c, rfl, hfind, by injection h⟩
  · intro fetches maxA h
    exact waitSyncGo_timeout fetches maxA 0 (fun j _ hj => h j hj)
  · intro fetches maxA k c hk herr hok
    exact waitSyncGo_found fetches maxA 0 k c (Nat.zero_le k) hk
      (fun j _ hj => herr j hj) hok

/-- Witness for C3 at concrete oracles: always-empty listings time out after
the cap; a confirming final listing is what an ok uid implies; always-failing
fetches end in the warning outcome; a fetch failure followed by a success ends
in the found outcome. -/
theorem c3_witness :
    waitForCollectionGeneration (fun _ => .ok []) "Task API - Docs" 10 =
      .error ("Collection generation timed out after " ++
        toString (10 * 2) ++ " seconds") ∧
    (∃ cols c, (Except.ok [Coll.mk "c1" "u1" "Task API - Docs"] :
        Except String (List Coll)) = .ok cols ∧
      cols.find? (fun c2 => c2.name = "Task API - Docs") = some c ∧
      c.uid = "u1") ∧
    waitForCollectionSync (fun _ => .error "ECONNRESET") 10 = .warnTimeout ∧
    waitForCollectionSync
      (fun j => if j = 0 then .error "ECONNRESET"
                else .ok (some (Coll.mk "c1" "u1" "n"))) 10 = .found := by
  refine ⟨?_, ?_, ?_, ?_⟩
  · exact c3_poll_exhaustion_policies.1 (fun _ => .ok []) "Task API - Docs" 10
      (fun j _ => ⟨[], rfl, rfl⟩)
  · exact c3_poll_exhaustion_policies.2.1 (fun _ => .ok [Coll.mk "c1" "u1" "Task API - Docs"])
      (.ok [Coll.mk "c1" "u1" "Task API - Docs"]) "Task API - Docs" 1 "u1"
      (by simp [generateNewCollection, waitForCollectionGeneration, waitGenGo])
  · exact c3_poll_exhaustion_policies.2.2.1 (fun _ => .error "ECONNRESET") 10
      (fun j _ => Or.inr ⟨"ECONNRESET", rfl⟩)
  · exact c3_poll_exhaustion_policies.2.2.2
      (fun j => if j = 0 then .error "ECONNRESET"
                else .ok (some (Coll.mk "c1" "u1" "n"))) 10 1
      (Coll.mk "c1" "u1" "n") (by decide)
      (fun j hj => ⟨"ECONNRESET", by interval_cases j; rfl⟩) rfl

/-- An array script value is always truthy. -/
theorem arr_truthy (l : List String) : (TScript.arr l).truthy = true := rfl

/-- The pushed test event is not a non-test event. -/
theorem nonTest_testEventFor (s : TScript) :
    nonTestEvent (testEventFor s) = false := by
  simp [nonTestEvent, testEventFor]

/-- When the script map holds an array `default` entry, the lookup chain of
the injector always lands on a truthy script, whatever the leaf's name. -/
theorem effectiveScript_isSome (ts : String → Option TScript) (d : List String)
    (hd : ts "default" = some (.arr d)) (n : String) :
    ∃ s, effectiveScript ts n = some s := by
  cases hts : ts n with
  | none =>
    exact ⟨.arr d, by simp [effectiveScript, jsOrScript, hts, hd, arr_truthy]⟩
  | some x =>
    cases hx : x.truthy with
    | true => exact ⟨x, by simp [effectiveScript, jsOrScript, hts, hx]⟩
    | false =>
      exact ⟨.arr d, by simp [effectiveScript, jsOrScript, hts, hx, hd, arr_truthy]⟩

/-- Filtering the injected event list for non-test events gives back exactly
the original non-test events. -/
theorem filter_inject_eq (ev : List Event) (s : TScript) :
    (ev.filter nonTestEvent ++ [testEventFor s]).filter nonTestEvent =
      ev.filter nonTestEvent := by
  rw [List.filter_append, List.filter_filter]
  have hp : (fun a => nonTestEvent a && nonTestEvent a) = nonTestEvent := by
    funext a
    cases nonTestEvent a <;> simp
  rw [hp]
  simp [nonTest_testEventFor]

/-- The original non-test events contribute no test event to the count. -/
theorem countP_filter_nonTest_zero (ev : List Event) :
    (ev.filter nonTestEvent).countP (fun e => e.listen = "test") = 0 := by
  rw [List.countP_eq_zero]
  intro a ha
  have hna := List.of_mem_filter ha
  simp [nonTestEvent] at hna
  simp [hna]

/-- The pushed test event counts as exactly one test event. -/
theorem countP_testEventFor_one (s : TScript) :
    ([testEventFor s].countP (fun e => e.listen = "test")) = 1 := by
  simp [testEventFor]

mutual

/-- Injection relates every item to its image under `injectedOKItem`, given an
array-valued `default` entry. -/
theorem injectItem_ok (ts : String → Option TScript) (d : List String)
    (hd : ts "default" = some (.arr d)) :
    ∀ it : Item, injectedOKItem it (injectItem ts it) = true
  | .mk n req ev none => by
    obtain ⟨s, hs⟩ := effectiveScript_isSome ts d hd n
    cases req with
    | none => simp [injectItem, injectedOKItem, hs]
    | some rq =>
      simp [injectItem, injectedOKItem, hs, filter_inject_eq,
        countP_filter_nonTest_zero, countP_testEventFor_one, nonTest_testEventFor]
  | .mk n req ev (some cs) => by
    obtain ⟨s, hs⟩ := effectiveScript_isSome ts d hd n
    have hrec := injectItems_ok ts d hd cs
    cases req with
    | none => simp [injectItem, injectedOKItem, hs, hrec]
    | some rq =>
      simp [injectItem, injectedOKItem, hs, hrec, filter_inject_eq,
        countP_filter_nonTest_zero, countP_testEventFor_one, nonTest_testEventFor]

/-- Injection relates every sibling list to its image, pointwise. -/
theorem injectItems_ok (ts : String → Option TScript) (d : List String)
    (hd : ts "default" = some (.arr d)) :
    ∀ l : List Item, injectedOKItems l (injectItems ts l) = true
  | [] => by simp [injectItems, injectedOKItems]
  | i :: rest => by
    simp [injectItems, injectedOKItems, injectItem_ok ts d hd i,
      injectItems_ok ts d hd rest]

end

/-- C2: for every collection tree and every script map holding a (script
array) `default` entry, after injection every leaf keeps its name and request,
its non-test events are exactly the original ones, it carries exactly one test
event, and the folder structure — number, ordering and nesting of nodes — is
unchanged (all this is what `injectedOKItem` checks pointwise). -/
theorem c2_injection_preserves_structure (ts : String → Option TScript)
    (d : List String) (hd : ts "default" = some (.arr d))
    (items : List Item) :
    injectedOKItems items (injectItems ts items) = true :=
  injectItems_ok ts d hd items

/-- Witness for C2 on a concrete nested tree and a default-only map. -/
theorem c2_witness :
    injectedOKItems demoTree (injectItems defaultOnlyMap demoTree) = true :=
  c2_injection_preserves_structure defaultOnlyMap ["pm.test();"] rfl demoTree

/-- C6: for the endpoint declaring a 200 response with media type
application/json and schema `type: object, required: [id, title]`, the
contract script asserts the status equals 200 exactly (not oneOf-style),
asserts the Content-Type header is present and contains application/json,
asserts the parsed body is an object, and asserts the body (or its first
element) has the properties id and title; in general, one property assertion
is emitted for every name in the transitively-collected required list of the
schema found under response key 200, else 201. -/
theorem c6_contract_required_fields :
    ("pm.test(\"Status code is 200\", function () \x7b" ∈
        generateContractTestScript c6Endpoint ∧
      "    pm.response.to.have.status(200);" ∈
        generateContractTestScript c6Endpoint ∧
      "    pm.expect(pm.response.code).to.be.oneOf([200]);" ∉
        generateContractTestScript c6Endpoint ∧
      "pm.test(\"Content-Type is application/json\", function () \x7b" ∈
        generateContractTestScript c6Endpoint ∧
      "    pm.response.to.have.header(\"Content-Type\");" ∈
        generateContractTestScript c6Endpoint ∧
      "    pm.expect(contentType).to.include(\"application/json\");" ∈
        generateContractTestScript c6Endpoint ∧
      "    pm.expect(jsonData).to.be.an('object');" ∈
        generateContractTestScript c6Endpoint ∧
      requiredFieldLine "id" ∈ generateContractTestScript c6Endpoint ∧
      requiredFieldLine "title" ∈ generateContractTestScript c6Endpoint) ∧
    (∀ (e : Endpoint) (s : Schema), schemaInfoOf e = some s →
      ∀ f ∈ getRequiredFields s,
        requiredFieldLine f ∈ generateContractTestScript e) := by
  constructor
  · exact ⟨by decide, by decide, by decide, by decide, by decide, by decide,
      by decide, by decide, by decide⟩
  · intro e s hs f hf
    have h1 : requiredFieldLine f ∈ contractSchemaBlock (schemaInfoOf e) := by
      rw [hs]
      unfold contractSchemaBlock
      have hlen : 0 < (getRequiredFields s).length :=
        List.length_pos.mpr (List.ne_nil_of_mem hf)
      simp only [List.mem_append, gt_iff_lt, hlen, if_true, List.mem_map]
      refine Or.inr (Or.inl (Or.inr ?_))
      exact ⟨f, hf, rfl⟩
    unfold generateContractTestScript
    simp only [List.mem_append]
    tauto

/-- Witness for C6's general clause at the scenario endpoint and field id. -/
theorem c6_witness :
    requiredFieldLine "id" ∈ generateContractTestScript c6Endpoint :=
  c6_contract_required_fields.2 c6Endpoint
    (Schema.mk (some "object") ["id", "title"] []) rfl "id" (by decide)

/-- `assertionNames` of an empty script. -/
theorem anames_nil : assertionNames [] = [] := rfl

/-- `assertionNames` distributes over script concatenation. -/
theorem anames_append (a b : List String) :
    assertionNames (a ++ b) = assertionNames a ++ assertionNames b :=
  List.filterMap_append a b _

/-- A line that opens no test contributes no assertion name. -/
theorem anames_cons_none (l : String) (rest : List String)
    (h : extractTestName l.data = none) :
    assertionNames (l :: rest) = assertionNames rest := by
  simp [assertionNames, List.filterMap_cons, h]

/-- A line that opens a test contributes its assertion name. -/
theorem anames_cons_some (l : String) (nm : List Char) (rest : List String)
    (h : extractTestName l.data = some nm) :
    assertionNames (l :: rest) = nm :: assertionNames rest := by
  simp [assertionNames, List.filterMap_cons, h]

/-- Appending anything to a non-test line at least nine characters long still
opens no test. -/
theorem extractTestName_append_none (a : String) (rest : List Char)
    (ha : extractTestName a.data = none)
    (hlen : pmTestOpen.length ≤ a.data.length) :
    extractTestName (a.data ++ rest) = none := by
  unfold extractTestName at ha ⊢
  by_cases hp : pmTestOpen.isPrefixOf (a.data ++ rest) = true
  · exfalso
    rw [List.isPrefixOf_iff_prefix, List.prefix_iff_eq_take,
      List.take_append_eq_append_take] at hp
    have h9 : pmTestOpen.length - a.data.length = 0 := by omega
    rw [h9, List.take_zero, List.append_nil] at hp
    have hpa : pmTestOpen.isPrefixOf a.data = true := by
      rw [List.isPrefixOf_iff_prefix, List.prefix_iff_eq_take]
      exact hp
    rw [if_pos hpa] at ha
    exact Option.noConfusion ha
  · rw [if_neg hp]

/-- A test-opening line built from a literal holding the opener and a
quote-free name prefix, with an arbitrary tail, extracts the prefix followed
by the tail up to the closing quote. -/
theorem extractTestName_opener (preLit : String) (preName : List Char)
    (tail : List Char) (hsplit : preLit.data = pmTestOpen ++ preName)
    (hq : ∀ c ∈ preName, c ≠ '"') :
    extractTestName (preLit.data ++ tail) =
      some (preName ++ tail.takeWhile (fun c => c ≠ '"')) := by
  rw [hsplit, List.append_assoc]
  unfold extractTestName
  have hp : pmTestOpen.isPrefixOf (pmTestOpen ++ (preName ++ tail)) = true := by
    rw [List.isPrefixOf_iff_prefix]
    exact List.prefix_append _ _
  rw [if_pos hp, List.drop_left, List.takeWhile_append,
    List.takeWhile_eq_self_iff.mpr (fun c hc => decide_eq_true (hq c hc))]
  simp

/-- String-level variant of `extractTestName_append_none`. -/
theorem extract_strcat_none (a b : String)
    (ha : extractTestName a.data = none)
    (hlen : pmTestOpen.length ≤ a.data.length) :
    extractTestName (a ++ b).data = none := by
  rw [String.data_append]
  exact extractTestName_append_none a b.data ha hlen

/-- Appending only grows a string past the opener length. -/
theorem strcat_len_ge (a b : String)
    (h : pmTestOpen.length ≤ a.data.length) :
    pmTestOpen.length ≤ (a ++ b).data.length := by
  rw [String.data_append, List.length_append]
  omega

/-- A header comment of the shape `lit ++ m ++ " " ++ p` opens no test. -/
theorem extract_comment_header (lit m p : String)
    (hlit : extractTestName lit.data = none)
    (hlen : pmTestOpen.length ≤ lit.data.length) :
    extractTestName (lit ++ m ++ " " ++ p).data = none := by
  apply extract_strcat_none
  · apply extract_strcat_none
    · exact extract_strcat_none _ _ hlit hlen
    · exact strcat_len_ge _ _ hlen
  · exact strcat_len_ge _ _ (strcat_len_ge _ _ hlen)

/-- An interpolated non-test line `lit1 ++ mid ++ lit2` opens no test. -/
theorem extract_sandwich_none (lit1 mid lit2 : String)
    (h1 : extractTestName lit1.data = none)
    (hlen : pmTestOpen.length ≤ lit1.data.length) :
    extractTestName (lit1 ++ mid ++ lit2).data = none := by
  apply extract_strcat_none
  · exact extract_strcat_none _ _ h1 hlen
  · exact strcat_len_ge _ _ hlen

/-- An interpolated test line `preLit ++ mid ++ lit2` extracts the name prefix
carried by `preLit` followed by the interpolation up to the closing quote. -/
theorem extract_test_sandwich (preLit : String) (preName : List Char)
    (mid lit2 : String) (hsplit : preLit.data = pmTestOpen ++ preName)
    (hq : ∀ c ∈ preName, c ≠ '"') :
    extractTestName (preLit ++ mid ++ lit2).data =
      some (preName ++
        (mid.data ++ lit2.data).takeWhile (fun c => c ≠ '"')) := by
  have hdata : (preLit ++ mid ++ lit2).data =
      preLit.data ++ (mid.data ++ lit2.data) := by
    rw [String.data_append, String.data_append, List.append_assoc]
  rw [hdata]
  exact extractTestName_opener preLit preName _ hsplit hq

/-- The smoke header contributes no assertion name. -/
theorem anames_smokeHeaderBlock (e : Endpoint) :
    assertionNames (smokeHeaderBlock e) = [] := by
  unfold smokeHeaderBlock
  rw [anames_cons_none _ _ (extract_comment_header _ _ _ (by decide) (by decide)),
    anames_cons_none _ _ (by decide), anames_cons_none _ _ (by decide)]
  rfl

/-- The smoke status block contributes the oneOf status assertion exactly when
a success code is declared. -/
theorem anames_smokeStatusBlock (codes : List String) :
    assertionNames (smokeStatusBlock codes) =
      if codes.length > 0 then ["Status code is success".data] else [] := by
  unfold smokeStatusBlock
  by_cases h : codes.length > 0
  · rw [if_pos h, if_pos h,
      anames_cons_none _ _ (by decide),
      anames_cons_some _ ("Status code is success".data) _ (by decide),
      anames_cons_none _ _ (extract_sandwich_none _ _ _ (by decide) (by decide)),
      anames_cons_none _ _ (by decide),
      anames_cons_none _ _ (by decide)]
    rfl
  · rw [if_neg h, if_neg h]
    rfl

/-- The smoke tail contributes the latency and body-not-empty assertions. -/
theorem anames_smokeTailBlock :
    assertionNames smokeTailBlock =
      ["Response time is acceptable".data,
       "Response body is not empty".data] := by decide

/-- The contract header contributes no assertion name. -/
theorem anames_contractHeader (e : Endpoint) :
    assertionNames (contractHeader e) = [] := by
  unfold contractHeader
  rw [anames_cons_none _ _ (extract_comment_header _ _ _ (by decide) (by decide)),
    anames_cons_none _ _ (by decide), anames_cons_none _ _ (by decide)]
  rfl

/-- The contract latency block contributes exactly the latency assertion. -/
theorem anames_contractLatencyBlock :
    assertionNames contractLatencyBlock =
      ["Response time is acceptable".data] := by decide

/-- The contract status block contributes exactly one assertion, named
`Status code is ` followed by the first success code, when one is declared. -/
theorem anames_contractStatusBlock (codes : List String) :
    assertionNames (contractStatusBlock codes) =
      if codes.length > 0 then
        ["Status code is ".data ++
          ((codes.headD "").data ++ "\", function () \x7b".data).takeWhile
            (fun c => c ≠ '"')]
      else [] := by
  unfold contractStatusBlock
  by_cases h : codes.length > 0
  · rw [if_pos h, if_pos h,
      anames_cons_none _ _ (by decide),
      anames_cons_some _ _ _
        (extract_test_sandwich "pm.test(\"Status code is "
          ("Status code is ".data) (codes.headD "") "\", function () \x7b"
          (by decide) (by decide)),
      anames_cons_none _ _ (extract_sandwich_none _ _ _ (by decide) (by decide)),
      anames_cons_none _ _ (by decide),
      anames_cons_none _ _ (by decide)]
    rfl
  · rw [if_neg h, if_neg h]
    rfl

/-- Any assertion name of the contract content-type block is `Content-Type is `
followed by the declared media type fragment. -/
theorem anames_contractCTBlock_mem (o : Option ResponseSpec) (nm : List Char)
    (h : nm ∈ assertionNames (contractCTBlock o)) :
    ∃ t, nm = "Content-Type is ".data ++ t := by
  unfold contractCTBlock at h
  cases o with
  | none => exact absurd h (by simp [assertionNames])
  | some r =>
    dsimp only at h
    cases hr : r.content with
    | none =>
      simp only [hr] at h
      exact absurd h (by simp [assertionNames])
    | some media =>
      simp only [hr] at h
      by_cases hl : (media.map Prod.fst).length > 0
      · rw [if_pos hl,
          anames_cons_none _ _ (by decide),
          anames_cons_some _ _ _
            (extract_test_sandwich "pm.test(\"Content-Type is "
              ("Content-Type is ".data)
              (headSplitSemicolon ((media.map Prod.fst).headD ""))
              "\", function () \x7b" (by decide) (by decide)),
          anames_cons_none _ _ (by decide),
          anames_cons_none _ _ (by decide),
          anames_cons_none _ _ (extract_sandwich_none _ _ _ (by decide) (by decide)),
          anames_cons_none _ _ (by decide),
          anames_cons_none _ _ (by decide)] at h
        simp only [anames_nil, List.mem_singleton] at h
        exact ⟨_, h⟩
      · rw [if_neg hl] at h
        exact absurd h (by simp [assertionNames])

/-- Any assertion name of the contract schema block is the schema-structure
name or the required-fields name. -/
theorem anames_contractSchemaBlock_mem (o : Option Schema) (nm : List Char)
    (h : nm ∈ assertionNames (contractSchemaBlock o)) :
    nm = "Response matches schema structure".data ∨
    nm = "Response has required fields".data := by
  unfold contractSchemaBlock at h
  cases o with
  | none => exact absurd h (by simp [assertionNames])
  | some s =>
    rw [anames_append] at h
    rcases List.mem_append.mp h with hA | hB
    · left
      rw [anames_append, anames_append] at hA
      have h5 : assertionNames
          ["// JSON Schema validation",
           "pm.test(\"Response matches schema structure\", function () \x7b",
           "    const jsonData = pm.response.json();",
           "    ",
           "    // Basic type validation"] =
          ["Response matches schema structure".data] := by decide
      have h2 : assertionNames ["\x7d);", ""] = [] := by decide
      have hX : assertionNames
          (if s.stype = some "object" then
            ["    pm.expect(jsonData).to.be.an('object');"]
          else if s.stype = some "array" then
            ["    pm.expect(jsonData).to.be.an('array');"]
          else []) = [] := by
        by_cases h1 : s.stype = some "object"
        · rw [if_pos h1]
          decide
        · rw [if_neg h1]
          by_cases h2a : s.stype = some "array"
          · rw [if_pos h2a]
            decide
          · rw [if_neg h2a]
            rfl
      rw [h5, hX, h2] at hA
      simpa using hA
    · right
      by_cases hreq : (getRequiredFields s).length > 0
      · rw [if_pos hreq] at hB
        rw [anames_append, anames_append] at hB
        have h5 : assertionNames
            ["// Required field validation",
             "pm.test(\"Response has required fields\", function () \x7b",
             "    const jsonData = pm.response.json();",
             "    const dataToCheck = Array.isArray(jsonData) ? (jsonData[0] || \x7b\x7d) : jsonData;",
             "    "] =
            ["Response has required fields".data] := by decide
        have h2 : assertionNames ["\x7d);", ""] = [] := by decide
        have hmap : assertionNames
            ((getRequiredFields s).map requiredFieldLine) = [] := by
          unfold assertionNames
          rw [List.filterMap_map, List.filterMap_eq_nil_iff]
          intro f _
          simp only [Function.comp]
          unfold requiredFieldLine
          exact extract_sandwich_none _ _ _ (by decide) (by decide)
        rw [h5, hmap, h2] at hB
        simpa using hB
      · rw [if_neg hreq] at hB
        exact absurd hB (by simp [assertionNames])

/-- The contract error block contributes exactly the error-shape assertion
when an error code is declared. -/
theorem anames_contractErrorBlock (codes : List String) :
    assertionNames (contractErrorBlock codes) =
      if codes.length > 0
      then ["Error responses have proper structure".data] else [] := by
  unfold contractErrorBlock
  by_cases h : codes.length > 0
  · rw [if_pos h, if_pos h]
    decide
  · rw [if_neg h, if_neg h]
    rfl

/-- Taking 15 characters off the status assertion name returns its prefix. -/
theorem statusPrefix_take (t : List Char) :
    ("Status code is ".data ++ t).take 15 = "Status code is ".data := by
  rw [List.take_append_eq_append_take]
  have h1 : ("Status code is ".data).take 15 = "Status code is ".data := by decide
  have h2 : 15 - ("Status code is ".data).length = 0 := by decide
  rw [h1, h2, List.take_zero, List.append_nil]

/-- Dropping 15 characters off the status assertion name returns its tail. -/
theorem statusPrefix_drop (t : List Char) :
    ("Status code is ".data ++ t).drop 15 = t := by
  have h := List.drop_left ("Status code is ".data) t
  rw [show ("Status code is ".data).length = 15 from by decide] at h
  exact h

/-- Taking 16 characters off the content-type assertion name returns its
prefix. -/
theorem ctPrefix_take (t : List Char) :
    ("Content-Type is ".data ++ t).take 16 = "Content-Type is ".data := by
  rw [List.take_append_eq_append_take]
  have h1 : ("Content-Type is ".data).take 16 = "Content-Type is ".data := by decide
  have h2 : 16 - ("Content-Type is ".data).length = 0 := by decide
  rw [h1, h2, List.take_zero, List.append_nil]

/-- Every assertion name of a contract script is the status name (whose
interpolated part starts with the digit 2), the latency name, a content-type
name, the schema-structure name, the required-fields name, or the error-shape
name. -/
theorem anames_contract_cases (e : Endpoint) (nm : List Char)
    (h : nm ∈ assertionNames (generateContractTestScript e)) :
    (∃ rest, nm = "Status code is ".data ++ '2' :: rest) ∨
    nm = "Response time is acceptable".data ∨
    (∃ t, nm = "Content-Type is ".data ++ t) ∨
    nm = "Response matches schema structure".data ∨
    nm = "Response has required fields".data ∨
    nm = "Error responses have proper structure".data := by
  unfold generateContractTestScript at h
  rw [anames_append, anames_append, anames_append, anames_append,
    anames_append, anames_contractHeader, anames_contractLatencyBlock,
    anames_contractStatusBlock, anames_contractErrorBlock] at h
  simp only [List.nil_append, List.mem_append] at h
  rcases h with ((((hS | hL) | hCT) | hSch) | hE)
  · by_cases hc : (successCodesOf e).length > 0
    · rw [if_pos hc, List.mem_singleton] at hS
      cases hcs : successCodesOf e with
      | nil => rw [hcs] at hc; simp at hc
      | cons c0 cs =>
        have hmem : c0 ∈ successCodesOf e := by
          rw [hcs]
          exact List.mem_cons_self _ _
        unfold successCodesOf at hmem
        have hstart := List.of_mem_filter hmem
        unfold jsStartsWith at hstart
        cases hd : c0.data with
        | nil => rw [hd] at hstart; exact absurd hstart (by decide)
        | cons ch rest2 =>
          rw [hd] at hstart
          have hch : ch = '2' := by
            have hpre : ("2".data) <+: (ch :: rest2) := by
              rw [← List.isPrefixOf_iff_prefix]
              exact hstart
            obtain ⟨t2, ht2⟩ := hpre
            rw [show ("2".data) = ['2'] from rfl, List.cons_append,
              List.nil_append] at ht2
            injection ht2 with h1 _
            exact h1.symm
          rw [hcs] at hS
          simp only [List.headD_cons] at hS
          rw [hd, hch] at hS
          simp only [List.cons_append,
            List.takeWhile_cons_of_pos (by decide :
              (fun c => decide (c ≠ '"')) '2' = true)] at hS
          exact Or.inl ⟨_, hS⟩
    · rw [if_neg hc] at hS
      exact absurd hS (by simp)
  · exact Or.inr (Or.inl (List.mem_singleton.mp hL))
  · exact Or.inr (Or.inr (Or.inl (anames_contractCTBlock_mem _ _ hCT)))
  · rcases anames_contractSchemaBlock_mem _ _ hSch with h1 | h1
    · exact Or.inr (Or.inr (Or.inr (Or.inl h1)))
    · exact Or.inr (Or.inr (Or.inr (Or.inr (Or.inl h1))))
  · by_cases hc : (errorCodesOf e).length > 0
    · rw [if_pos hc, List.mem_singleton] at hE
      exact Or.inr (Or.inr (Or.inr (Or.inr (Or.inr hE))))
    · rw [if_neg hc] at hE
      exact absurd hE (by simp)

/-- C5 (counterexample): at the endpoint `GET /tasks` (200, application/json,
no schema) the smoke script's body-not-empty and oneOf-status assertions have
no counterpart in the contract script, so the contract assertion set is not a
superset of the smoke assertion set. -/
theorem c5_counterexample :
    "Response body is not empty".data ∈
      assertionNames (generateSmokeTestScript c5Endpoint) ∧
    "Response body is not empty".data ∉
      assertionNames (generateContractTestScript c5Endpoint) ∧
    "Status code is success".data ∈
      assertionNames (generateSmokeTestScript c5Endpoint) ∧
    "Status code is success".data ∉
      assertionNames (generateContractTestScript c5Endpoint) :=
  ⟨by decide, by decide, by decide, by decide⟩

/-- C5 (amended): both tiers share the latency assertion verbatim and both
assert on the status (smoke with its fixed oneOf-style name, contract with an
exact-first-2xx name), and the schema, content-type and error-shape assertions
appear only in the contract tier (the smoke assertion set is exactly status,
latency, body-not-empty); but the contract set is not a superset of the smoke
set: the smoke body-not-empty and oneOf-status assertions are absent from the
contract script. -/
theorem c5_tier_assertions_amended :
    (∀ e, assertionNames (generateSmokeTestScript e) =
      (if (successCodesOf e).length > 0
        then ["Status code is success".data] else []) ++
      ["Response time is acceptable".data,
       "Response body is not empty".data]) ∧
    (∀ e, "Response time is acceptable".data ∈
      assertionNames (generateContractTestScript e)) ∧
    (∀ e, "Response body is not empty".data ∉
      assertionNames (generateContractTestScript e)) ∧
    (∀ e, "Status code is success".data ∉
      assertionNames (generateContractTestScript e)) ∧
    (∀ e, 0 < (successCodesOf e).length →
      ∃ t, ("Status code is ".data ++ t) ∈
        assertionNames (generateContractTestScript e)) := by
  refine ⟨?_, ?_, ?_, ?_, ?_⟩
  · intro e
    unfold generateSmokeTestScript
    rw [anames_append, anames_append, anames_smokeHeaderBlock,
      anames_smokeStatusBlock, anames_smokeTailBlock]
    simp
  · intro e
    unfold generateContractTestScript
    rw [anames_append, anames_append, anames_append, anames_append,
      anames_append, anames_contractLatencyBlock]
    simp [List.mem_append]
  · intro e h
    rcases anames_contract_cases e _ h with ⟨r, hr⟩ | h1 | ⟨t, ht⟩ | h1 | h1 | h1
    · have h15 := congrArg (List.take 15) hr
      rw [statusPrefix_take] at h15
      exact absurd h15 (by decide)
    · exact absurd h1 (by decide)
    · have h16 := congrArg (List.take 16) ht
      rw [ctPrefix_take] at h16
      exact absurd h16 (by decide)
    · exact absurd h1 (by decide)
    · exact absurd h1 (by decide)
    · exact absurd h1 (by decide)
  · intro e h
    rcases anames_contract_cases e _ h with ⟨r, hr⟩ | h1 | ⟨t, ht⟩ | h1 | h1 | h1
    · have hdrop := congrArg (List.drop 15) hr
      rw [statusPrefix_drop] at hdrop
      have h1c := congrArg (List.take 1) hdrop
      rw [show (('2' :: r).take 1) = ['2'] from rfl] at h1c
      exact absurd h1c (by decide)
    · exact absurd h1 (by decide)
    · have h16 := congrArg (List.take 16) ht
      rw [ctPrefix_take] at h16
      exact absurd h16 (by decide)
    · exact absurd h1 (by decide)
    · exact absurd h1 (by decide)
    · exact absurd h1 (by decide)
  · intro e hc
    refine ⟨(((successCodesOf e).headD "").data ++
      "\", function () \x7b".data).takeWhile (fun c => c ≠ '"'), ?_⟩
    unfold generateContractTestScript
    rw [anames_append, anames_append, anames_append, anames_append,
      anames_append, anames_contractStatusBlock, if_pos hc]
    simp [List.mem_append]

/-- Witness for C5's amended statement at the scenario endpoint. -/
theorem c5_witness :
    "Response time is acceptable".data ∈
      assertionNames (generateContractTestScript c5Endpoint) ∧
    (∃ t, ("Status code is ".data ++ t) ∈
      assertionNames (generateContractTestScript c5Endpoint)) :=
  ⟨c5_tier_assertions_amended.2.1 c5Endpoint,
   c5_tier_assertions_amended.2.2.2.2 c5Endpoint (by decide)⟩
